import Mathlib

/-!
Verification of the mediasoup SFU orchestration layer of the
webrtc-mediasoup-live-proctoring repository.

The TypeScript services (WorkerManagerService, RouterService,
TransportService, ProducerService, ConsumerService, RoomService,
SignalingGateway and MediasoupSignalingService) are shallowly embedded as
pure Lean functions over explicit registry states.  JavaScript Maps are
modelled as association lists whose insert replaces any existing binding
and whose erase removes the binding; the opaque mediasoup engine
(worker.createRouter, transport.connect, transport.produce,
transport.consume, handle.close) is modelled by fresh-id allocation and
explicit effect logs (created/closed router ids, per-transport handshake
call counters), so that "the underlying call was invoked exactly once"
is a provable statement.  Wall-clock timestamps (createdAt fields) and
the logging calls are not modelled; neither influences control flow.
-/

namespace Proctoring

/-- Machine-readable failure codes of the SFU control plane (spec section 7);
the services raise them by throwing, the embedding returns them in Except. -/
inductive Err where
  | NoWorkersAvailable
  | RouterNotFound
  | TransportNotFound
  | WrongTransportDirection
  | ProducerNotFound
  | ConsumerNotFound
  | IncompatibleCodec
  | RoomFull
deriving DecidableEq, Repr

/-- Association-list lookup: first binding of the key, if any
(JS Map.get). -/
def alookup {κ α : Type} [DecidableEq κ] : List (κ × α) → κ → Option α
  | [], _ => none
  | (k, v) :: rest, key => if k = key then some v else alookup rest key

/-- Remove every binding of a key (JS Map.delete; maps built with ainsert
hold at most one binding per key). -/
def aerase {κ α : Type} [DecidableEq κ] : List (κ × α) → κ → List (κ × α)
  | [], _ => []
  | (k, v) :: rest, key =>
      if k = key then aerase rest key else (k, v) :: aerase rest key

/-- Insert or replace a binding (JS Map.set; iteration order of replaced
keys is abstracted). -/
def ainsert {κ α : Type} [DecidableEq κ] (l : List (κ × α)) (key : κ) (v : α) :
    List (κ × α) :=
  aerase l key ++ [(key, v)]

/-- All values of the map, in iteration order (JS Map.values). -/
def avalues {κ α : Type} (l : List (κ × α)) : List α := l.map (·.2)

-- ===========================================================================
-- Worker Pool Manager (worker-manager.service.ts)
-- ===========================================================================

/-- Opaque handle of one mediasoup worker process, identified by pid. -/
structure Worker where
  pid : Nat
deriving DecidableEq, Repr

/-- Entry of WorkerManagerService.workers: the handle plus the count of
routers currently bound to it. -/
structure WorkerInfo where
  worker : Worker
  routerCount : Nat
deriving DecidableEq, Repr

/-- State of WorkerManagerService: the live pool and the round-robin
cursor nextWorkerIndex. -/
structure WMState where
  workers : List WorkerInfo
  nextWorkerIndex : Nat
deriving DecidableEq, Repr

/-- WorkerManagerService.getNextWorker: round-robin selection; throws
when the pool is empty, otherwise returns workers[nextWorkerIndex] and
advances the cursor to (nextWorkerIndex + 1) % workers.length.  The
service keeps the cursor in range (it starts at 0, every advance is
taken modulo the pool size, and the death handler clamps it); an
out-of-range cursor, unreachable in the service, is mapped to the same
failure as the empty pool. -/
def getNextWorker (st : WMState) : Except Err (Worker × WMState) :=
  match st.workers.get? st.nextWorkerIndex with
  | none => .error .NoWorkersAvailable
  | some wi =>
      .ok (wi.worker,
        { st with nextWorkerIndex := (st.nextWorkerIndex + 1) % st.workers.length })

/-- Array.prototype.find followed by an in-place mutation: rewrite the
first pool entry with the given pid, leave the rest untouched. -/
def updateWorkerEntry : List WorkerInfo → Nat → (WorkerInfo → WorkerInfo) →
    List WorkerInfo
  | [], _, _ => []
  | wi :: rest, pid, f =>
      if wi.worker.pid = pid then f wi :: rest
      else wi :: updateWorkerEntry rest pid f

/-- WorkerManagerService.incrementRouterCount: find the pool entry with
the worker pid and increment its routerCount. -/
def incrementRouterCount (st : WMState) (w : Worker) : WMState :=
  let ws := updateWorkerEntry st.workers w.pid
    (fun wi => { wi with routerCount := wi.routerCount + 1 })
  { st with workers := ws }

/-- WorkerManagerService.decrementRouterCount: find the pool entry with
the worker pid and decrement its routerCount when positive. -/
def decrementRouterCount (st : WMState) (w : Worker) : WMState :=
  let ws := updateWorkerEntry st.workers w.pid
    (fun wi => if 0 < wi.routerCount then { wi with routerCount := wi.routerCount - 1 }
      else wi)
  { st with workers := ws }

/-- Fallback entry for total indexing in specifications; never the one
selected when the cursor is in range. -/
def wiDefault : WorkerInfo := { worker := ⟨0⟩, routerCount := 0 }

/-- n successive getNextWorker calls, collecting the returned workers in
call order (stopping if the pool is empty). -/
def getNextWorkerRun (st : WMState) : Nat → List Worker × WMState
  | 0 => ([], st)
  | n + 1 =>
      match getNextWorker st with
      | .error _ => ([], st)
      | .ok (w, st') =>
          let (rest, st'') := getNextWorkerRun st' n
          (w :: rest, st'')

-- ===========================================================================
-- Router Registry (router.service.ts)
-- ===========================================================================

/-- Opaque mediasoup router handle, identified by the engine-assigned id. -/
structure Router where
  id : Nat
deriving DecidableEq, Repr

/-- Entry of RouterService.routers: the handle, its room and the pid of the
owning worker. -/
structure RouterInfo where
  router : Router
  roomId : String
  workerId : Nat
deriving DecidableEq, Repr

/-- State of RouterService together with the engine-side observables:
nextRouterId allocates fresh engine router ids, createdRouters logs every
worker.createRouter call and closedRouters every router.close call. -/
structure RSState where
  routers : List (String × RouterInfo)
  wm : WMState
  nextRouterId : Nat
  createdRouters : List Nat
  closedRouters : List Nat
deriving DecidableEq, Repr

/-- RouterService.getRouter: lookup without creating. -/
def getRouter (st : RSState) (roomId : String) : Option Router :=
  (alookup st.routers roomId).map (·.router)

/-- RouterService.hasRouter. -/
def hasRouter (st : RSState) (roomId : String) : Bool :=
  (alookup st.routers roomId).isSome

/-- A getOrCreateRouter call in flight.  getOrCreateRouter runs one
synchronous segment (map check, getNextWorker, issuing the engine
worker.createRouter call) up to the await of createRouter, suspends, and
on resumption runs a second synchronous segment (registering the
RouterInfo, incrementing the worker router count) before returning.
The constructors mark where a call stands between those segments. -/
inductive RouterTask where
  | start (roomId : String)
  | awaited (roomId : String) (w : Worker) (r : Router)
  | done (r : Router)
  | failed (e : Err)
deriving DecidableEq, Repr

/-- One synchronous segment of getOrCreateRouter (consumer.service.ts
router section, getOrCreateRouter and createRouter).  From start: if a
router for the room is registered, return it at once; otherwise select a
worker round-robin and issue the engine createRouter call (a fresh
router id is allocated and logged), then suspend.  From awaited: the
engine call has completed, so register the RouterInfo in the map
(replacing any binding racing calls left there), increment the owning
worker router count, and return the router. -/
def routerTaskStep (st : RSState) : RouterTask → RSState × RouterTask
  | .start roomId =>
      match alookup st.routers roomId with
      | some info => (st, .done info.router)
      | none =>
          match getNextWorker st.wm with
          | .error e => (st, .failed e)
          | .ok (w, wm') =>
              let rid := st.nextRouterId
              let st' := { st with wm := wm', nextRouterId := rid + 1, createdRouters := st.createdRouters ++ [rid] }
              (st', .awaited roomId w ⟨rid⟩)
  | .awaited roomId w r =>
      let info : RouterInfo := { router := r, roomId := roomId, workerId := w.pid }
      let st' := { st with routers := ainsert st.routers roomId info, wm := incrementRouterCount st.wm w }
      (st', .done r)
  | .done r => (st, .done r)
  | .failed e => (st, .failed e)

/-- Run a scheduler over a pool of concurrent getOrCreateRouter calls:
each schedule entry names the task whose next synchronous segment the
event loop runs (out-of-range entries are skipped). -/
def runRouterTasks (st : RSState) (tasks : List RouterTask) :
    List Nat → RSState × List RouterTask
  | [] => (st, tasks)
  | i :: rest =>
      match tasks.get? i with
      | none => runRouterTasks st tasks rest
      | some t =>
          let (st', t') := routerTaskStep st t
          runRouterTasks st' (tasks.set i t') rest

/-- One getOrCreateRouter call run to completion with no interleaving:
both synchronous segments back to back (the sequential semantics). -/
def getOrCreateRouterRun (st : RSState) (roomId : String) :
    RSState × Option Router :=
  match routerTaskStep st (.start roomId) with
  | (st', .done r) => (st', some r)
  | (st', .awaited roomId' w r) =>
      match routerTaskStep st' (.awaited roomId' w r) with
      | (st'', .done r') => (st'', some r')
      | (st'', _) => (st'', none)
  | (st', _) => (st', none)

/-- A sequence of non-overlapping getOrCreateRouter calls for one room,
each completing before the next begins; returns the routers handed to
the callers, in call order. -/
def seqGetOrCreateRouter (st : RSState) (roomId : String) :
    Nat → RSState × List (Option Router)
  | 0 => (st, [])
  | n + 1 =>
      let (st', r) := getOrCreateRouterRun st roomId
      let (st'', rs) := seqGetOrCreateRouter st' roomId n
      (st'', r :: rs)

/-- RouterService.closeRouter: on a registered room, close the underlying
router (logged in closedRouters; the engine cascades the close to the
transports, producers and consumers of that router) and remove the map
entry; the worker router count is left untouched (the source only notes
that the decrement would be handled by an engine event in production).
On an unknown room: warn and no-op. -/
def closeRouter (st : RSState) (roomId : String) : RSState :=
  match alookup st.routers roomId with
  | none => st
  | some info =>
      { st with closedRouters := st.closedRouters ++ [info.router.id], routers := aerase st.routers roomId }

-- ===========================================================================
-- Transport Registry (transport.service.ts)
-- ===========================================================================

/-- Transport direction: send transports carry producers, recv transports
carry consumers. -/
inductive Dir where
  | send
  | recv
deriving DecidableEq, Repr

/-- Opaque mediasoup WebRTC transport handle; connectCalls counts the
engine transport.connect invocations (the DTLS handshake completion),
so "the handshake was invoked exactly once" is observable. -/
structure MsTransport where
  id : Nat
  connectCalls : Nat
deriving DecidableEq, Repr

/-- Opaque client-supplied DTLS parameters, passed through to the
engine unchanged. -/
structure DtlsParams where
  fingerprint : Nat
deriving DecidableEq, Repr

/-- Entry of TransportService.transports. -/
structure TransportInfo where
  transport : MsTransport
  peerId : String
  roomId : String
  direction : Dir
  connected : Bool
deriving DecidableEq, Repr

/-- State of TransportService: the registry keyed by transport id. -/
structure TSState where
  transports : List (Nat × TransportInfo)
deriving DecidableEq, Repr

/-- TransportService.getTransportInfo. -/
def getTransportInfo (st : TSState) (transportId : Nat) : Option TransportInfo :=
  alookup st.transports transportId

/-- TransportService.getTransportsForPeer: registry values whose peerId
matches. -/
def getTransportsForPeer (st : TSState) (peerId : String) : List TransportInfo :=
  (avalues st.transports).filter (fun t => t.peerId = peerId)

/-- TransportService.connectTransport: unknown id fails TransportNotFound;
an already connected transport warns and returns at once; otherwise the
engine transport.connect runs (connectCalls is incremented) and the
entry is marked connected. -/
def connectTransport (st : TSState) (transportId : Nat) (d : DtlsParams) :
    Except Err Unit × TSState :=
  match alookup st.transports transportId with
  | none => (.error .TransportNotFound, st)
  | some ti =>
      if ti.connected then (.ok (), st)
      else
        let _ := d
        let ti' := { ti with transport := { ti.transport with connectCalls := ti.transport.connectCalls + 1 }, connected := true }
        (.ok (), { transports := ainsert st.transports transportId ti' })

/-- TransportService.closeTransport: close the underlying transport and
deregister; warn and no-op when unknown. -/
def closeTransport (st : TSState) (transportId : Nat) : TSState :=
  match alookup st.transports transportId with
  | none => st
  | some _ => { transports := aerase st.transports transportId }

/-- TransportService.closeTransportsForPeer: snapshot the matching
transports, then close each by id. -/
def closeTransportsForPeer (st : TSState) (peerId : String) : TSState :=
  (getTransportsForPeer st peerId).foldl
    (fun acc ti => closeTransport acc ti.transport.id) st

-- ===========================================================================
-- Producer Registry (producer.service.ts)
-- ===========================================================================

/-- Media kind of a track. -/
inductive MediaKind where
  | audio
  | video
deriving DecidableEq, Repr

/-- Application track-type tag. -/
inductive TrackType where
  | webcam
  | screen
  | audio
deriving DecidableEq, Repr

/-- Opaque mediasoup producer handle. -/
structure MsProducer where
  id : Nat
  kind : MediaKind
deriving DecidableEq, Repr

/-- App data attached to a producer. -/
structure ProducerAppData where
  trackType : TrackType
  peerId : String
  roomId : String
deriving DecidableEq, Repr

/-- Entry of ProducerService.producers. -/
structure ProducerInfo where
  producer : MsProducer
  appData : ProducerAppData
deriving DecidableEq, Repr

/-- Observable events of ProducerService.produce, in program order:
stored marks the registry Map.set of the producer entry, notified marks
the notifyNewProducer invocation that fans the event to the registered
listeners. -/
inductive PEvent where
  | stored (producerId : Nat)
  | notified (producerId : Nat)
deriving DecidableEq, Repr

/-- State of ProducerService: the registry, the engine id source for
transport.produce, and the event log. -/
structure PSState where
  producers : List (Nat × ProducerInfo)
  nextProducerId : Nat
  log : List PEvent
deriving DecidableEq, Repr

/-- ProducerService.getProducerInfo. -/
def getProducerInfo (st : PSState) (producerId : Nat) : Option ProducerInfo :=
  alookup st.producers producerId

/-- ProducerService.getProducersForPeer. -/
def getProducersForPeer (st : PSState) (peerId : String) : List ProducerInfo :=
  (avalues st.producers).filter (fun info => info.appData.peerId = peerId)

/-- ProducerService.produce: resolve the transport (TransportNotFound if
absent, WrongTransportDirection unless direction is send), run the
engine transport.produce (a fresh producer id), store the ProducerInfo
in the registry, and only then invoke the new-producer notification
once; returns the producer id. -/
def produce (ts : TSState) (st : PSState) (transportId : Nat)
    (kind : MediaKind) (appData : ProducerAppData) :
    Except Err Nat × PSState :=
  match getTransportInfo ts transportId with
  | none => (.error .TransportNotFound, st)
  | some ti =>
      if ti.direction ≠ .send then (.error .WrongTransportDirection, st)
      else
        let pid := st.nextProducerId
        let info : ProducerInfo := { producer := { id := pid, kind := kind }, appData := appData }
        let st' : PSState := { producers := ainsert st.producers pid info, nextProducerId := pid + 1, log := st.log ++ [.stored pid] }
        let st'' := { st' with log := st'.log ++ [.notified pid] }
        (.ok pid, st'')

/-- ProducerService.closeProducer: close and deregister; warn and no-op
when unknown. -/
def closeProducer (st : PSState) (producerId : Nat) : PSState :=
  match alookup st.producers producerId with
  | none => st
  | some _ => { st with producers := aerase st.producers producerId }

/-- ProducerService.closeProducersForPeer: snapshot the matching
producers, then close each by id. -/
def closeProducersForPeer (st : PSState) (peerId : String) : PSState :=
  (getProducersForPeer st peerId).foldl
    (fun acc info => closeProducer acc info.producer.id) st

-- ===========================================================================
-- Consumer Registry (consumer.service.ts)
-- ===========================================================================

/-- Opaque mediasoup consumer handle; kind is inherited from the consumed
producer and paused mirrors the creation option honoured by the engine. -/
structure MsConsumer where
  id : Nat
  producerId : Nat
  kind : MediaKind
  paused : Bool
deriving DecidableEq, Repr

/-- App data attached to a consumer. -/
structure ConsumerAppData where
  producerId : Nat
  peerId : String
  roomId : String
  trackType : TrackType
deriving DecidableEq, Repr

/-- Entry of ConsumerService.consumers. -/
structure ConsumerInfo where
  consumer : MsConsumer
  appData : ConsumerAppData
deriving DecidableEq, Repr

/-- Parameters returned to the viewer by consume. -/
structure ConsumerOptions where
  id : Nat
  producerId : Nat
  kind : MediaKind
  appData : ConsumerAppData
deriving DecidableEq, Repr

/-- State of ConsumerService: the registry and the engine id source for
transport.consume. -/
structure CSState where
  consumers : List (Nat × ConsumerInfo)
  nextConsumerId : Nat
deriving DecidableEq, Repr

/-- ConsumerService.getConsumerInfo. -/
def getConsumerInfo (st : CSState) (consumerId : Nat) : Option ConsumerInfo :=
  alookup st.consumers consumerId

/-- ConsumerService.getConsumersForPeer. -/
def getConsumersForPeer (st : CSState) (peerId : String) : List ConsumerInfo :=
  (avalues st.consumers).filter (fun info => info.appData.peerId = peerId)

/-- ConsumerService.consume: the declared check order of the source —
router lookup, producer lookup, the router.canConsume codec
compatibility check (an opaque engine predicate over producer id and
viewer capabilities, passed in as canConsume), transport lookup,
direction check — and only after every check passes does the engine
transport.consume run, with paused set to true, and the ConsumerInfo
enter the registry; every failure leaves the registry untouched. -/
def consume (canConsume : Nat → Nat → Bool) (rs : RSState) (ts : TSState)
    (ps : PSState) (st : CSState) (roomId consumerPeerId : String)
    (transportId producerId rtpCapabilities : Nat) :
    Except Err ConsumerOptions × CSState :=
  match getRouter rs roomId with
  | none => (.error .RouterNotFound, st)
  | some _router =>
      match getProducerInfo ps producerId with
      | none => (.error .ProducerNotFound, st)
      | some producerInfo =>
          if ¬ canConsume producerId rtpCapabilities then
            (.error .IncompatibleCodec, st)
          else
            match getTransportInfo ts transportId with
            | none => (.error .TransportNotFound, st)
            | some transportInfo =>
                if transportInfo.direction ≠ .recv then
                  (.error .WrongTransportDirection, st)
                else
                  let consumerAppData : ConsumerAppData := { producerId := producerId, peerId := consumerPeerId, roomId := roomId, trackType := producerInfo.appData.trackType }
                  let cid := st.nextConsumerId
                  let consumer : MsConsumer := { id := cid, producerId := producerId, kind := producerInfo.producer.kind, paused := true }
                  let st' : CSState := { consumers := ainsert st.consumers cid { consumer := consumer, appData := consumerAppData }, nextConsumerId := cid + 1 }
                  (.ok { id := cid, producerId := producerId, kind := consumer.kind, appData := consumerAppData }, st')

/-- ConsumerService.closeConsumer: close and deregister; warn and no-op
when unknown. -/
def closeConsumer (st : CSState) (consumerId : Nat) : CSState :=
  match alookup st.consumers consumerId with
  | none => st
  | some _ => { st with consumers := aerase st.consumers consumerId }

/-- ConsumerService.closeConsumersForPeer: snapshot the matching
consumers, then close each by id. -/
def closeConsumersForPeer (st : CSState) (peerId : String) : CSState :=
  (getConsumersForPeer st peerId).foldl
    (fun acc info => closeConsumer acc info.consumer.id) st

-- ===========================================================================
-- Room Service (room.service.ts)
-- ===========================================================================

/-- Lifecycle state of an application room. -/
inductive RoomState where
  | waiting
  | active
  | paused
  | ended
  | invalidated
deriving DecidableEq, Repr

/-- Room configuration. -/
structure RoomConfig where
  id : String
  name : String
  maxParticipants : Nat
  requireWebcam : Bool
  requireScreenShare : Bool
  enableAudio : Bool
  enableRecording : Bool
deriving DecidableEq, Repr

/-- Roster entry; the connection-state, joined-at and active-track fields
of the source Participant carry no control flow and are not modelled. -/
structure Participant where
  userId : String
deriving DecidableEq, Repr

/-- An application room: configuration, lifecycle state and the roster
keyed by user id. -/
structure Room where
  config : RoomConfig
  state : RoomState
  participants : List (String × Participant)
deriving DecidableEq, Repr

/-- State of RoomService.rooms. -/
abbrev RoomsState := List (String × Room)

/-- RoomService.roomExists. -/
def roomExists (rooms : RoomsState) (roomId : String) : Bool :=
  (alookup rooms roomId).isSome

/-- RoomService.createRoom: warn and keep the existing room if present,
otherwise register a fresh room in the waiting state with an empty
roster. -/
def createRoom (rooms : RoomsState) (roomId : String) (config : RoomConfig) :
    RoomsState :=
  match alookup rooms roomId with
  | some _ => rooms
  | none =>
      ainsert rooms roomId { config := config, state := .waiting, participants := [] }

/-- RoomService.addParticipant: null when the room is unknown or the
roster has reached maxParticipants (checked before inserting), otherwise
store the participant under the user id and return it. -/
def addParticipant (rooms : RoomsState) (roomId : String) (p : Participant) :
    RoomsState × Option Participant :=
  match alookup rooms roomId with
  | none => (rooms, none)
  | some room =>
      if room.participants.length ≥ room.config.maxParticipants then (rooms, none)
      else
        let room' := { room with participants := ainsert room.participants p.userId p }
        (ainsert rooms roomId room', some p)

/-- RoomService.removeParticipant: delete the roster entry; when the
roster thereby becomes empty the whole room entry is deleted from the
registry (the room is not marked ended).  Returns whether a participant
was removed. -/
def removeParticipant (rooms : RoomsState) (roomId userId : String) :
    RoomsState × Bool :=
  match alookup rooms roomId with
  | none => (rooms, false)
  | some room =>
      if (alookup room.participants userId).isSome then
        let ps := aerase room.participants userId
        if ps.length = 0 then (aerase rooms roomId, true)
        else (ainsert rooms roomId { room with participants := ps }, true)
      else (rooms, false)

-- ===========================================================================
-- Signaling Gateway (signaling.gateway.ts and mediasoup-signaling.service.ts)
-- ===========================================================================

/-- Per-connection metadata the gateway keeps on each socket. -/
structure ClientCtx where
  id : String
  userId : Option String
  roomId : Option String
deriving DecidableEq, Repr

/-- Outbound broadcast messages relevant to the claims. -/
inductive GwMsg where
  | participantLeft (roomId userId : String)
deriving DecidableEq, Repr

/-- A broadcast queued by the gateway: the recipient client ids and the
message. -/
structure Broadcast where
  recipients : List String
  msg : GwMsg
deriving DecidableEq, Repr

/-- Combined state of the gateway and every registry it drives. -/
structure GWState where
  clients : List (String × ClientCtx)
  rooms : RoomsState
  rs : RSState
  ts : TSState
  ps : PSState
  cs : CSState
  outbox : List Broadcast
deriving Repr

/-- SignalingGateway.broadcastToRoom: queue the message for every client
bound to the room except the excluded connection. -/
def broadcastToRoom (gw : GWState) (roomId : String) (msg : GwMsg)
    (excludeClientId : String) : GWState :=
  let recips := ((avalues gw.clients).filter
    (fun c => decide (c.roomId = some roomId ∧ c.id ≠ excludeClientId))).map (·.id)
  { gw with outbox := gw.outbox ++ [{ recipients := recips, msg := msg }] }

/-- MediasoupSignalingService.cleanupPeer: close all producers for the
peer, then all consumers for the peer, then all transports for the peer.
Nothing else: in particular the room router is not closed here. -/
def cleanupPeer (gw : GWState) (roomId peerId : String) : GWState :=
  let _ := roomId
  { gw with ps := closeProducersForPeer gw.ps peerId, cs := closeConsumersForPeer gw.cs peerId, ts := closeTransportsForPeer gw.ts peerId }

/-- SignalingGateway.handleDisconnect: for a joined connection run
cleanupPeer, remove the participant from the room roster, broadcast
participant-left to the other clients of the room, and drop the
connection from the client map; an unjoined connection is only dropped
from the client map. -/
def handleDisconnect (gw : GWState) (client : ClientCtx) : GWState :=
  match client.roomId, client.userId with
  | some roomId, some userId =>
      let gw1 := cleanupPeer gw roomId userId
      let gw2 := { gw1 with rooms := (removeParticipant gw1.rooms roomId userId).1 }
      let gw3 := broadcastToRoom gw2 roomId (.participantLeft roomId userId) client.id
      { gw3 with clients := aerase gw3.clients client.id }
  | _, _ => { gw with clients := aerase gw.clients client.id }

/-- The hard-coded configuration SignalingGateway.handleRoomJoin supplies
when it auto-creates a missing room. -/
def joinRoomConfig (roomId : String) : RoomConfig :=
  { id := roomId, name := "Room " ++ roomId, maxParticipants := 10, requireWebcam := true, requireScreenShare := true, enableAudio := true, enableRecording := false }

/-- Result of a room.join request as seen by the requesting client. -/
inductive JoinOutcome where
  | joined
  | roomFull
deriving DecidableEq, Repr

/-- Room-registry effect of SignalingGateway.handleRoomJoin after payload
validation: auto-create the room with the hard-coded joinRoomConfig when
absent, then addParticipant; a null participant is answered with the
RoomFull error.  The connection-metadata binding and the room-state /
participant-joined messages do not touch the room registry and are not
modelled. -/
def handleRoomJoin (rooms : RoomsState) (roomId userId : String) :
    RoomsState × JoinOutcome :=
  let rooms1 := if roomExists rooms roomId then rooms
    else createRoom rooms roomId (joinRoomConfig roomId)
  match addParticipant rooms1 roomId { userId := userId } with
  | (rooms2, some _) => (rooms2, .joined)
  | (rooms2, none) => (rooms2, .roomFull)

-- ===========================================================================
-- Concrete fixture states used by the witnesses and counterexamples
-- ===========================================================================

/-- A one-worker pool with one bound router. -/
def wmFix : WMState :=
  { workers := [{ worker := ⟨1⟩, routerCount := 1 }], nextWorkerIndex := 0 }

/-- Router registry holding the router of room exam-1 on worker 1. -/
def rsFix : RSState :=
  { routers := [("exam-1", { router := ⟨7⟩, roomId := "exam-1", workerId := 1 })], wm := wmFix, nextRouterId := 8, createdRouters := [7], closedRouters := [] }

/-- Transport registry: a connected recv transport of the proctor and a
fresh send transport of the candidate, both in room exam-1. -/
def tsFix : TSState :=
  { transports := [(5, { transport := { id := 5, connectCalls := 1 }, peerId := "proctor", roomId := "exam-1", direction := .recv, connected := true }), (6, { transport := { id := 6, connectCalls := 0 }, peerId := "cand", roomId := "exam-1", direction := .send, connected := false })] }

/-- Producer registry: the candidate webcam producer 3. -/
def psFix : PSState :=
  { producers := [(3, { producer := { id := 3, kind := .video }, appData := { trackType := .webcam, peerId := "cand", roomId := "exam-1" } })], nextProducerId := 4, log := [.stored 3, .notified 3] }

/-- Empty consumer registry. -/
def csFix : CSState := { consumers := [], nextConsumerId := 0 }

/-- The registry state reached by one completed router creation for a
fresh room: the router is registered, the worker count incremented, the
engine creation logged once. -/
def afterCreateState (st : RSState) (roomId : String) (w : Worker) (wm' : WMState) : RSState :=
  { routers := ainsert st.routers roomId { router := ⟨st.nextRouterId⟩, roomId := roomId, workerId := w.pid }, wm := incrementRouterCount wm' w, nextRouterId := st.nextRouterId + 1, createdRouters := st.createdRouters ++ [st.nextRouterId], closedRouters := st.closedRouters }

/-- Empty router registry over a single-worker pool, before any join. -/
def rsEmpty : RSState :=
  { routers := [], wm := { workers := [{ worker := ⟨1⟩, routerCount := 0 }], nextWorkerIndex := 0 }, nextRouterId := 0, createdRouters := [], closedRouters := [] }

/-- A roster of ten distinct participants. -/
def participants10 : List (String × Participant) :=
  [("u0", ⟨"u0"⟩), ("u1", ⟨"u1"⟩), ("u2", ⟨"u2"⟩), ("u3", ⟨"u3"⟩), ("u4", ⟨"u4"⟩), ("u5", ⟨"u5"⟩), ("u6", ⟨"u6"⟩), ("u7", ⟨"u7"⟩), ("u8", ⟨"u8"⟩), ("u9", ⟨"u9"⟩)]

/-- Room registry holding exam-1 at the join-path configuration with a
full roster of ten participants. -/
def roomsFull : RoomsState :=
  [("exam-1", { config := joinRoomConfig "exam-1", state := .waiting, participants := participants10 })]

/-- Transport registry of peer u1 in room exam-1. -/
def tsC9 : TSState :=
  { transports := [(5, { transport := { id := 5, connectCalls := 1 }, peerId := "u1", roomId := "exam-1", direction := .recv, connected := true })] }

/-- Producer registry of peer u1 in room exam-1. -/
def psC9 : PSState :=
  { producers := [(3, { producer := { id := 3, kind := .video }, appData := { trackType := .webcam, peerId := "u1", roomId := "exam-1" } })], nextProducerId := 4, log := [.stored 3, .notified 3] }

/-- Consumer registry of peer u1 in room exam-1. -/
def csC9 : CSState :=
  { consumers := [(2, { consumer := { id := 2, producerId := 3, kind := .video, paused := true }, appData := { producerId := 3, peerId := "u1", roomId := "exam-1", trackType := .webcam } })], nextConsumerId := 3 }

/-- Gateway state: u1 (connection c1) is the sole participant of the
active room exam-1, whose router is registered in rsFix. -/
def gwC9 : GWState :=
  { clients := [("c1", { id := "c1", userId := some "u1", roomId := some "exam-1" })], rooms := [("exam-1", { config := joinRoomConfig "exam-1", state := .active, participants := [("u1", ⟨"u1"⟩)] })], rs := rsFix, ts := tsC9, ps := psC9, cs := csC9, outbox := [] }

/-- The connection context of c1 in gwC9. -/
def clientC9 : ClientCtx := { id := "c1", userId := some "u1", roomId := some "exam-1" }

/-- Gateway state like gwC9 but with a second participant u3 (connection
c3) in room exam-1, so the room survives the disconnect of u1. -/
def gwC9b : GWState :=
  { clients := [("c1", { id := "c1", userId := some "u1", roomId := some "exam-1" }), ("c3", { id := "c3", userId := some "u3", roomId := some "exam-1" })], rooms := [("exam-1", { config := joinRoomConfig "exam-1", state := .active, participants := [("u1", ⟨"u1"⟩), ("u3", ⟨"u3"⟩)] })], rs := rsFix, ts := tsC9, ps := psC9, cs := csC9, outbox := [] }

-- ===========================================================================
-- Association-list lemmas
-- ===========================================================================

theorem alookup_aerase_self {κ α : Type} [DecidableEq κ]
    (l : List (κ × α)) (k : κ) : alookup (aerase l k) k = none := by
  induction l with
  | nil => rfl
  | cons hd tl ih =>
      obtain ⟨k', v⟩ := hd
      by_cases h : k' = k
      · simpa [aerase, h] using ih
      · simp only [aerase, h, if_false, alookup]
        simpa [h] using ih

theorem alookup_aerase_ne {κ α : Type} [DecidableEq κ]
    (l : List (κ × α)) (k k' : κ) (h : k' ≠ k) :
    alookup (aerase l k) k' = alookup l k' := by
  induction l with
  | nil => rfl
  | cons hd tl ih =>
      obtain ⟨k₀, v⟩ := hd
      by_cases hk : k₀ = k
      · subst hk
        simp only [aerase, if_pos rfl, alookup, Ne.symm h, if_false]
        exact ih
      · simp only [aerase, hk, if_false, alookup]
        rw [ih]

theorem alookup_append {κ α : Type} [DecidableEq κ]
    (l₁ l₂ : List (κ × α)) (k : κ) :
    alookup (l₁ ++ l₂) k =
      match alookup l₁ k with
      | some v => some v
      | none => alookup l₂ k := by
  induction l₁ with
  | nil => rfl
  | cons hd tl ih =>
      obtain ⟨k₀, v⟩ := hd
      by_cases hk : k₀ = k
      · simp [alookup, hk]
      · simpa [alookup, hk] using ih

theorem alookup_ainsert_self {κ α : Type} [DecidableEq κ]
    (l : List (κ × α)) (k : κ) (v : α) : alookup (ainsert l k v) k = some v := by
  unfold ainsert
  rw [alookup_append, alookup_aerase_self]
  simp [alookup]

theorem alookup_ainsert_ne {κ α : Type} [DecidableEq κ]
    (l : List (κ × α)) (k k' : κ) (v : α) (h : k' ≠ k) :
    alookup (ainsert l k v) k' = alookup l k' := by
  unfold ainsert
  rw [← alookup_aerase_ne l k k' h, alookup_append]
  cases halt : alookup (aerase l k) k' with
  | some v₀ => rfl
  | none => simp [alookup, Ne.symm h]

-- ===========================================================================
-- Claim C2: consumers are created paused
-- ===========================================================================

/-- Claim C2: every consumer returned by consume is created in the paused
state: whenever consume succeeds (router present, producer present,
compatible capabilities, receive transport present), the consumer
registered under the returned id has paused = true at creation. -/
theorem claim2_consume_paused (canConsume : Nat → Nat → Bool)
    (rs : RSState) (ts : TSState) (ps : PSState) (st : CSState)
    (roomId peerId : String) (transportId producerId caps : Nat)
    (opts : ConsumerOptions) (st' : CSState)
    (h : consume canConsume rs ts ps st roomId peerId transportId producerId caps = (.ok opts, st')) :
    ∃ info, getConsumerInfo st' opts.id = some info ∧ info.consumer.paused = true := by
  unfold consume at h
  cases hr : getRouter rs roomId with
  | none => simp [hr] at h
  | some router =>
      cases hp : getProducerInfo ps producerId with
      | none => simp [hr, hp] at h
      | some producerInfo =>
          by_cases hc : canConsume producerId caps
          · cases ht : getTransportInfo ts transportId with
            | none => simp [hr, hp, hc, ht] at h
            | some transportInfo =>
                by_cases hdir : transportInfo.direction = Dir.recv
                · simp [hr, hp, hc, ht, hdir] at h
                  obtain ⟨h1, h2⟩ := h
                  subst h1
                  subst h2
                  exact ⟨_, alookup_ainsert_self _ _ _, rfl⟩
                · simp [hr, hp, hc, ht, hdir] at h
          · simp [hr, hp, hc] at h

/-- Witness for claim C2: the proctor consumes producer 3 of room exam-1
over recv transport 5 and obtains consumer 0 registered paused. -/
theorem claim2_consume_paused_witness :
    ∃ info, getConsumerInfo { consumers := [(0, { consumer := { id := 0, producerId := 3, kind := .video, paused := true }, appData := { producerId := 3, peerId := "proctor", roomId := "exam-1", trackType := .webcam } })], nextConsumerId := 1 } 0 = some info ∧ info.consumer.paused = true :=
  claim2_consume_paused (fun _ _ => true) rsFix tsFix psFix csFix "exam-1" "proctor" 5 3 0 _ _ rfl

-- ===========================================================================
-- Claim C3: consume failures precede creation and leave the registry alone
-- ===========================================================================

/-- Claim C3: whenever consume fails (router absent, producer absent,
incompatible codec, transport absent or wrong direction) it fails before
any consumer object is created and the consumer registry is unchanged;
in particular with router and producer present but incompatible
capabilities the failure is IncompatibleCodec, raised before creation. -/
theorem claim3_consume_error_registry_unchanged (canConsume : Nat → Nat → Bool)
    (rs : RSState) (ts : TSState) (ps : PSState) (st : CSState)
    (roomId peerId : String) (transportId producerId caps : Nat) :
    (∀ e : Err, (consume canConsume rs ts ps st roomId peerId transportId producerId caps).1 = .error e →
       (consume canConsume rs ts ps st roomId peerId transportId producerId caps).2 = st) ∧
    (∀ r producerInfo, getRouter rs roomId = some r →
       getProducerInfo ps producerId = some producerInfo →
       canConsume producerId caps = false →
       consume canConsume rs ts ps st roomId peerId transportId producerId caps = (.error .IncompatibleCodec, st)) := by
  constructor
  · intro e he
    unfold consume at he ⊢
    cases hr : getRouter rs roomId with
    | none => simp [hr]
    | some r =>
        cases hp : getProducerInfo ps producerId with
        | none => simp [hr, hp]
        | some producerInfo =>
            by_cases hc : canConsume producerId caps
            · cases ht : getTransportInfo ts transportId with
              | none => simp [hr, hp, hc, ht]
              | some ti =>
                  by_cases hdir : ti.direction = Dir.recv
                  · simp [hr, hp, hc, ht, hdir] at he
                  · simp [hr, hp, hc, ht, hdir]
            · simp [hr, hp, hc]
  · intro r producerInfo hr hp hc
    unfold consume
    rw [hr, hp]
    simp [hc]

/-- Witness for claim C3: an incompatible-capability consume of producer
3 in room exam-1 fails with IncompatibleCodec and leaves the (empty)
consumer registry exactly as it was. -/
theorem claim3_consume_error_registry_unchanged_witness :
    (consume (fun _ _ => false) rsFix tsFix psFix csFix "exam-1" "proctor" 5 3 0).2 = csFix ∧
    consume (fun _ _ => false) rsFix tsFix psFix csFix "exam-1" "proctor" 5 3 0 = (.error .IncompatibleCodec, csFix) := by
  have h := claim3_consume_error_registry_unchanged (fun _ _ => false) rsFix tsFix psFix csFix "exam-1" "proctor" 5 3 0
  exact ⟨h.1 .IncompatibleCodec rfl, h.2 ⟨7⟩ _ rfl rfl rfl⟩

-- ===========================================================================
-- Claim C5: transport direction enforcement
-- ===========================================================================

/-- Claim C5: produce against a registered transport whose direction is
not send fails with WrongTransportDirection and creates no producer; a
consume whose earlier checks pass but whose registered transport has a
direction other than recv fails the same way and creates no consumer. -/
theorem claim5_direction_enforcement (canConsume : Nat → Nat → Bool)
    (rs : RSState) (ts : TSState) (ps : PSState) (cs : CSState)
    (roomId peerId : String) (produceTid consumeTid producerId caps : Nat)
    (kind : MediaKind) (appData : ProducerAppData) :
    (∀ ti, getTransportInfo ts produceTid = some ti → ti.direction ≠ .send →
       produce ts ps produceTid kind appData = (.error .WrongTransportDirection, ps)) ∧
    (∀ r producerInfo ti, getRouter rs roomId = some r →
       getProducerInfo ps producerId = some producerInfo →
       canConsume producerId caps = true →
       getTransportInfo ts consumeTid = some ti → ti.direction ≠ .recv →
       consume canConsume rs ts ps cs roomId peerId consumeTid producerId caps = (.error .WrongTransportDirection, cs)) := by
  constructor
  · intro ti ht hdir
    unfold produce
    rw [ht]
    simp [hdir]
  · intro r producerInfo ti hr hp hc ht hdir
    unfold consume
    rw [hr, hp, ht]
    simp [hc, hdir]

/-- Witness for claim C5: producing on the recv transport 5 and consuming
over the send transport 6 both fail with WrongTransportDirection and
leave the registries untouched. -/
theorem claim5_direction_enforcement_witness :
    produce tsFix psFix 5 .video { trackType := .webcam, peerId := "proctor", roomId := "exam-1" } = (.error .WrongTransportDirection, psFix) ∧
    consume (fun _ _ => true) rsFix tsFix psFix csFix "exam-1" "cand" 6 3 0 = (.error .WrongTransportDirection, csFix) := by
  have h := claim5_direction_enforcement (fun _ _ => true) rsFix tsFix psFix csFix "exam-1" "cand" 5 6 3 0 .video { trackType := .webcam, peerId := "proctor", roomId := "exam-1" }
  exact ⟨h.1 _ rfl (by decide), h.2 ⟨7⟩ _ _ rfl rfl rfl rfl (by decide)⟩

-- ===========================================================================
-- Claim C4: connectTransport is idempotent
-- ===========================================================================

/-- Claim C4: connectTransport on an unknown id fails TransportNotFound;
on a registered unconnected transport it succeeds, runs the underlying
handshake exactly once (connectCalls is incremented by one and the entry
is marked connected), and a second identical call succeeds with no side
effect at all (the state is returned unchanged). -/
theorem claim4_connect_idempotent (st : TSState) (transportId : Nat) (d : DtlsParams) :
    (alookup st.transports transportId = none →
       connectTransport st transportId d = (.error .TransportNotFound, st)) ∧
    (∀ ti, alookup st.transports transportId = some ti → ti.connected = false →
       (connectTransport st transportId d).1 = .ok () ∧
       getTransportInfo (connectTransport st transportId d).2 transportId =
         some { ti with transport := { ti.transport with connectCalls := ti.transport.connectCalls + 1 }, connected := true } ∧
       connectTransport (connectTransport st transportId d).2 transportId d =
         (.ok (), (connectTransport st transportId d).2)) := by
  constructor
  · intro hnone
    unfold connectTransport
    rw [hnone]
  · intro ti ht hconn
    have hfirst : connectTransport st transportId d =
        (.ok (), { transports := ainsert st.transports transportId { ti with transport := { ti.transport with connectCalls := ti.transport.connectCalls + 1 }, connected := true } }) := by
      unfold connectTransport
      rw [ht]
      simp [hconn]
    have hsecond : connectTransport { transports := ainsert st.transports transportId { ti with transport := { ti.transport with connectCalls := ti.transport.connectCalls + 1 }, connected := true } } transportId d =
        (.ok (), { transports := ainsert st.transports transportId { ti with transport := { ti.transport with connectCalls := ti.transport.connectCalls + 1 }, connected := true } }) := by
      unfold connectTransport
      rw [alookup_ainsert_self]
      rfl
    refine ⟨by rw [hfirst], ?_, ?_⟩
    · rw [hfirst]
      exact alookup_ainsert_self _ _ _
    · rw [hfirst]
      exact hsecond

/-- Witness for claim C4: connecting the fresh send transport 6 twice
performs the handshake once and the second call changes nothing, while
transport 99 is unknown. -/
theorem claim4_connect_idempotent_witness :
    connectTransport tsFix 99 ⟨0⟩ = (.error .TransportNotFound, tsFix) ∧
    ((connectTransport tsFix 6 ⟨0⟩).1 = .ok () ∧
     getTransportInfo (connectTransport tsFix 6 ⟨0⟩).2 6 =
       some { transport := { id := 6, connectCalls := 1 }, peerId := "cand", roomId := "exam-1", direction := .send, connected := true } ∧
     connectTransport (connectTransport tsFix 6 ⟨0⟩).2 6 ⟨0⟩ =
       (.ok (), (connectTransport tsFix 6 ⟨0⟩).2)) :=
  ⟨(claim4_connect_idempotent tsFix 99 ⟨0⟩).1 rfl,
   (claim4_connect_idempotent tsFix 6 ⟨0⟩).2 _ rfl rfl⟩

-- ===========================================================================
-- Claim C7: new-producer notification fires once, after registration
-- ===========================================================================

/-- Claim C7: a successful produce stores the producer in the registry
and only then invokes the new-producer notification, exactly once: the
event log gains precisely one stored event followed by one notified
event for the new id, and the id is queryable in the final registry. -/
theorem claim7_notify_once_after_store (ts : TSState) (st : PSState)
    (transportId : Nat) (kind : MediaKind) (appData : ProducerAppData)
    (producerId : Nat) (st' : PSState)
    (h : produce ts st transportId kind appData = (.ok producerId, st')) :
    st'.log = st.log ++ [.stored producerId, .notified producerId] ∧
    ∃ info, getProducerInfo st' producerId = some info ∧ info.appData = appData := by
  unfold produce at h
  cases ht : getTransportInfo ts transportId with
  | none => simp [ht] at h
  | some ti =>
      by_cases hdir : ti.direction = Dir.send
      · simp [ht, hdir] at h
        obtain ⟨h1, h2⟩ := h
        subst h1
        subst h2
        constructor
        · simp
        · exact ⟨_, alookup_ainsert_self _ _ _, rfl⟩
      · simp [ht, hdir] at h

/-- Witness for claim C7: the candidate audio produce on send transport 6
yields producer 4, logged as stored then notified after the existing
events of producer 3. -/
theorem claim7_notify_once_after_store_witness :
    ({ producers := [(3, { producer := { id := 3, kind := .video }, appData := { trackType := .webcam, peerId := "cand", roomId := "exam-1" } }), (4, { producer := { id := 4, kind := .audio }, appData := { trackType := .audio, peerId := "cand", roomId := "exam-1" } })], nextProducerId := 5, log := [.stored 3, .notified 3, .stored 4, .notified 4] } : PSState).log = psFix.log ++ [.stored 4, .notified 4] ∧
    ∃ info, getProducerInfo { producers := [(3, { producer := { id := 3, kind := .video }, appData := { trackType := .webcam, peerId := "cand", roomId := "exam-1" } }), (4, { producer := { id := 4, kind := .audio }, appData := { trackType := .audio, peerId := "cand", roomId := "exam-1" } })], nextProducerId := 5, log := [.stored 3, .notified 3, .stored 4, .notified 4] } 4 = some info ∧ info.appData = { trackType := .audio, peerId := "cand", roomId := "exam-1" } :=
  claim7_notify_once_after_store tsFix psFix 6 .audio { trackType := .audio, peerId := "cand", roomId := "exam-1" } 4 _ rfl

-- ===========================================================================
-- Claim C6: closeRouter (corrected: the worker count is not decremented)
-- ===========================================================================

/-- Claim C6 counterexample: on the concrete registry rsFix (room exam-1
on worker 1, which carries router count 1), closeRouter removes the
entry and closes the underlying router, but the owning worker router
count stays 1: the decrement the claim states does not happen. -/
theorem claim6_closeRouter_no_decrement_cex :
    hasRouter (closeRouter rsFix "exam-1") "exam-1" = false ∧
    (closeRouter rsFix "exam-1").closedRouters = [7] ∧
    (closeRouter rsFix "exam-1").wm = rsFix.wm ∧
    (closeRouter rsFix "exam-1").wm ≠ decrementRouterCount rsFix.wm ⟨1⟩ := by
  refine ⟨by decide, by decide, by decide, by decide⟩

/-- Claim C6 (amended): closeRouter on a registered room closes the
underlying router and removes the registry entry, leaving every other
room and the whole worker state, in particular every router count,
untouched; on an unknown room it warns and is a no-op. -/
theorem claim6_closeRouter_amended (st : RSState) (roomId : String) :
    (∀ info, alookup st.routers roomId = some info →
       hasRouter (closeRouter st roomId) roomId = false ∧
       (closeRouter st roomId).closedRouters = st.closedRouters ++ [info.router.id] ∧
       (closeRouter st roomId).wm = st.wm ∧
       ∀ other, other ≠ roomId → getRouter (closeRouter st roomId) other = getRouter st other) ∧
    (alookup st.routers roomId = none → closeRouter st roomId = st) := by
  constructor
  · intro info hinfo
    have hrun : closeRouter st roomId = { st with closedRouters := st.closedRouters ++ [info.router.id], routers := aerase st.routers roomId } := by
      unfold closeRouter
      rw [hinfo]
    refine ⟨?_, by rw [hrun], by rw [hrun], ?_⟩
    · rw [hrun]
      unfold hasRouter
      simp [alookup_aerase_self]
    · intro other hne
      rw [hrun]
      unfold getRouter
      simp [alookup_aerase_ne _ _ _ hne]
  · intro hnone
    unfold closeRouter
    rw [hnone]

/-- Witness for the amended claim C6 at the concrete registry rsFix. -/
theorem claim6_closeRouter_amended_witness :
    hasRouter (closeRouter rsFix "exam-1") "exam-1" = false ∧
    (closeRouter rsFix "exam-1").closedRouters = [7] ∧
    (closeRouter rsFix "exam-1").wm = rsFix.wm ∧
    getRouter (closeRouter rsFix "exam-1") "exam-2" = getRouter rsFix "exam-2" ∧
    closeRouter rsFix "exam-3" = rsFix := by
  have h := (claim6_closeRouter_amended rsFix "exam-1").1 { router := ⟨7⟩, roomId := "exam-1", workerId := 1 } rfl
  exact ⟨h.1, h.2.1, h.2.2.1, h.2.2.2 "exam-2" (by decide), (claim6_closeRouter_amended rsFix "exam-3").2 rfl⟩

-- ===========================================================================
-- Claim C10: join-path room configuration and the RoomFull limit
-- ===========================================================================

/-- Claim C10: a room auto-created through the room.join signaling path
gets the fixed hard-coded configuration joinRoomConfig (maxParticipants
10, webcam and screen share required, audio on, recording off) and the
join succeeds; and a join against a room of capacity 10 whose roster
already holds 10 participants is rejected with RoomFull, leaving the
room registry unchanged. -/
theorem claim10_roomjoin_config_capacity (rooms : RoomsState) (roomId userId : String) :
    (roomExists rooms roomId = false →
       (handleRoomJoin rooms roomId userId).2 = .joined ∧
       ∃ room, alookup (handleRoomJoin rooms roomId userId).1 roomId = some room ∧
         room.config = joinRoomConfig roomId) ∧
    (∀ room, alookup rooms roomId = some room →
       room.config.maxParticipants = 10 → 10 ≤ room.participants.length →
       handleRoomJoin rooms roomId userId = (rooms, .roomFull)) := by
  constructor
  · intro hne
    have hnone : alookup rooms roomId = none := by
      cases halt : alookup rooms roomId with
      | none => rfl
      | some r => rw [roomExists, halt] at hne; simp at hne
    have hrun : handleRoomJoin rooms roomId userId =
        (ainsert (ainsert rooms roomId { config := joinRoomConfig roomId, state := .waiting, participants := [] }) roomId { config := joinRoomConfig roomId, state := .waiting, participants := ainsert [] userId ⟨userId⟩ }, .joined) := by
      unfold handleRoomJoin createRoom addParticipant
      rw [hne, hnone]
      simp [alookup_ainsert_self, joinRoomConfig]
    rw [hrun]
    exact ⟨rfl, _, alookup_ainsert_self _ _ _, rfl⟩
  · intro room hlook hmax hlen
    unfold handleRoomJoin addParticipant
    have hex : roomExists rooms roomId = true := by rw [roomExists, hlook]; rfl
    rw [hex]
    simp [hlook, hmax, hlen]

/-- Witness for claim C10: the first join into a fresh registry creates
exam-1 at the hard-coded configuration, and the eleventh distinct user
joining the full exam-1 room is rejected with RoomFull. -/
theorem claim10_roomjoin_config_capacity_witness :
    ((handleRoomJoin [] "exam-1" "u0").2 = .joined ∧
     ∃ room, alookup (handleRoomJoin [] "exam-1" "u0").1 "exam-1" = some room ∧
       room.config = joinRoomConfig "exam-1") ∧
    handleRoomJoin roomsFull "exam-1" "u10" = (roomsFull, .roomFull) := by
  refine ⟨(claim10_roomjoin_config_capacity [] "exam-1" "u0").1 rfl, ?_⟩
  exact (claim10_roomjoin_config_capacity roomsFull "exam-1" "u10").2 _ rfl (by decide) (by decide)

-- ===========================================================================
-- Claim C1: getOrCreateRouter under concurrency (corrected: not serialized)
-- ===========================================================================

/-- A completed getOrCreateRouter call on a room whose router is already
registered returns that router and changes nothing. -/
theorem getOrCreateRouterRun_existing (st : RSState) (roomId : String)
    (info : RouterInfo) (h : alookup st.routers roomId = some info) :
    getOrCreateRouterRun st roomId = (st, some info.router) := by
  simp only [getOrCreateRouterRun, routerTaskStep]
  rw [h]

/-- A completed getOrCreateRouter call on a room with no router, when the
pool yields a worker, creates exactly one router (one engine
createRouter call), registers it and returns it. -/
theorem getOrCreateRouterRun_fresh (st : RSState) (roomId : String)
    (w : Worker) (wm' : WMState)
    (h1 : alookup st.routers roomId = none)
    (h2 : getNextWorker st.wm = .ok (w, wm')) :
    getOrCreateRouterRun st roomId = (afterCreateState st roomId w wm', some ⟨st.nextRouterId⟩) := by
  simp only [getOrCreateRouterRun, routerTaskStep]
  rw [h1, h2]
  rfl

/-- Sequential calls after the router exists all return it unchanged. -/
theorem seqGetOrCreateRouter_existing (roomId : String) (info : RouterInfo) :
    ∀ (n : Nat) (st : RSState), alookup st.routers roomId = some info →
      seqGetOrCreateRouter st roomId n = (st, List.replicate n (some info.router)) := by
  intro n
  induction n with
  | zero => intro st h; rfl
  | succ n ih =>
      intro st h
      unfold seqGetOrCreateRouter
      rw [getOrCreateRouterRun_existing st roomId info h]
      show (match seqGetOrCreateRouter st roomId n with
        | (st'', rs) => (st'', some info.router :: rs)) = _
      rw [ih st h]
      rfl

/-- Claim C1 counterexample: from an empty registry, two concurrent
getOrCreateRouter calls for room exam-1, scheduled so that both run
their synchronous check segment before either creation completes (the
schedule check-A, check-B, register-A, register-B around the awaited
engine call), make two engine createRouter calls and hand the two
callers two different routers — not one router and one shared
reference.  No per-room serialization exists in the code to exclude
this schedule. -/
theorem claim1_router_race_cex :
    (runRouterTasks rsEmpty [.start "exam-1", .start "exam-1"] [0, 1, 0, 1]).1.createdRouters.length = 2 ∧
    (runRouterTasks rsEmpty [.start "exam-1", .start "exam-1"] [0, 1, 0, 1]).2 = [.done ⟨0⟩, .done ⟨1⟩] ∧
    RouterTask.done (⟨0⟩ : Router) ≠ .done ⟨1⟩ := by
  refine ⟨by decide, by decide, by decide⟩

/-- Claim C1 (amended): getOrCreateRouter is idempotent for serialized
calls — when each call completes before the next begins, a sequence of
n + 1 calls for a room with no router (and a live pool) makes exactly
one engine createRouter call and every caller receives the same router;
the code does not itself serialize concurrent first-joins, and an
interleaving of two first-join calls at the awaited engine creation
creates two routers, the second registration overwriting the first. -/
theorem claim1_router_serialized_idempotent (st : RSState) (roomId : String)
    (w : Worker) (wm' : WMState) (n : Nat)
    (h1 : alookup st.routers roomId = none)
    (h2 : getNextWorker st.wm = .ok (w, wm')) :
    (seqGetOrCreateRouter st roomId (n + 1)).1.createdRouters = st.createdRouters ++ [st.nextRouterId] ∧
    (seqGetOrCreateRouter st roomId (n + 1)).2 = List.replicate (n + 1) (some ⟨st.nextRouterId⟩) := by
  have hfresh := getOrCreateRouterRun_fresh st roomId w wm' h1 h2
  have hseq : seqGetOrCreateRouter st roomId (n + 1) =
      (afterCreateState st roomId w wm', some ⟨st.nextRouterId⟩ :: List.replicate n (some ⟨st.nextRouterId⟩)) := by
    unfold seqGetOrCreateRouter
    rw [hfresh]
    show (match seqGetOrCreateRouter (afterCreateState st roomId w wm') roomId n with
      | (st'', rs) => (st'', some (⟨st.nextRouterId⟩ : Router) :: rs)) = _
    rw [seqGetOrCreateRouter_existing roomId { router := ⟨st.nextRouterId⟩, roomId := roomId, workerId := w.pid } n (afterCreateState st roomId w wm') (alookup_ainsert_self _ _ _)]
  rw [hseq]
  exact ⟨rfl, rfl⟩

/-- Witness for the amended claim C1: three serialized calls for exam-1
from the empty registry create router 0 once and return it to every
caller. -/
theorem claim1_router_serialized_idempotent_witness :
    (seqGetOrCreateRouter rsEmpty "exam-1" 3).1.createdRouters = [0] ∧
    (seqGetOrCreateRouter rsEmpty "exam-1" 3).2 = [some ⟨0⟩, some ⟨0⟩, some ⟨0⟩] := by
  have h := claim1_router_serialized_idempotent rsEmpty "exam-1" ⟨1⟩ { workers := [{ worker := ⟨1⟩, routerCount := 0 }], nextWorkerIndex := 0 } 2 rfl rfl
  exact ⟨h.1, h.2⟩

-- ===========================================================================
-- Claim C9: the disconnect cascade (corrected: room deleted, router kept)
-- ===========================================================================

theorem filter_nil_of_all {α : Type} (l : List α) (p : α → Bool)
    (h : ∀ a ∈ l, p a = false) : l.filter p = [] := by
  induction l with
  | nil => rfl
  | cons hd tl ih =>
      rw [List.filter_cons, h hd (List.mem_cons_self hd tl)]
      exact ih (fun a ha => h a (List.mem_cons_of_mem _ ha))

theorem aerase_of_alookup_none {κ α : Type} [DecidableEq κ]
    {l : List (κ × α)} {k : κ} (h : alookup l k = none) : aerase l k = l := by
  induction l with
  | nil => rfl
  | cons hd tl ih =>
      obtain ⟨k₀, v⟩ := hd
      by_cases hk : k₀ = k
      · rw [alookup, if_pos hk] at h
        cases h
      · rw [alookup, if_neg hk] at h
        rw [aerase, if_neg hk, ih h]

theorem mem_aerase {κ α : Type} [DecidableEq κ] {l : List (κ × α)} {key : κ}
    {p : κ × α} (h : p ∈ aerase l key) : p ∈ l ∧ p.1 ≠ key := by
  induction l with
  | nil => simp [aerase] at h
  | cons hd tl ih =>
      obtain ⟨k₀, v⟩ := hd
      by_cases hk : k₀ = key
      · obtain ⟨h1, h2⟩ := ih (by simpa [aerase, hk] using h)
        exact ⟨List.mem_cons_of_mem _ h1, h2⟩
      · have h' : p = (k₀, v) ∨ p ∈ aerase tl key := by simpa [aerase, hk] using h
        cases h' with
        | inl he => exact ⟨by rw [he]; exact List.mem_cons_self _ _, by rw [he]; exact hk⟩
        | inr hm =>
            obtain ⟨h1, h2⟩ := ih hm
            exact ⟨List.mem_cons_of_mem _ h1, h2⟩

theorem mem_foldl_aerase {κ α : Type} [DecidableEq κ] {p : κ × α} :
    ∀ {ids : List κ} {l : List (κ × α)},
      p ∈ List.foldl aerase l ids → p ∈ l ∧ p.1 ∉ ids := by
  intro ids
  induction ids with
  | nil => intro l h; exact ⟨h, by simp⟩
  | cons i rest ih =>
      intro l h
      obtain ⟨h1, h2⟩ := ih h
      obtain ⟨h3, h4⟩ := mem_aerase h1
      refine ⟨h3, ?_⟩
      simp only [List.mem_cons, not_or]
      exact ⟨h4, h2⟩

/-- Erasing, from an association list with consistent per-entry ids, every
id of a value satisfying a predicate leaves no value satisfying it. -/
theorem foldl_aerase_clears {α : Type} (l : List (Nat × α)) (pred : α → Bool)
    (idOf : α → Nat) (hwf : ∀ p ∈ l, idOf p.2 = p.1) :
    (avalues (List.foldl aerase l (((avalues l).filter pred).map idOf))).filter pred = [] := by
  apply filter_nil_of_all
  intro v hv
  have hv' : ∃ k, (k, v) ∈ List.foldl aerase l (((l.map (fun x => x.2)).filter pred).map idOf) := by
    simpa [avalues] using hv
  obtain ⟨k, hmem⟩ := hv'
  obtain ⟨hl, hnot⟩ := mem_foldl_aerase hmem
  cases hb : pred v with
  | false => rfl
  | true =>
      exfalso
      apply hnot
      refine List.mem_map.mpr ⟨v, ?_, ?_⟩
      · refine List.mem_filter.mpr ⟨?_, hb⟩
        exact List.mem_map.mpr ⟨(k, v), hl, rfl⟩
      · exact hwf (k, v) hl

theorem closeProducer_producers (s : PSState) (producerId : Nat) :
    (closeProducer s producerId).producers = aerase s.producers producerId := by
  unfold closeProducer
  cases h : alookup s.producers producerId with
  | none => exact (aerase_of_alookup_none h).symm
  | some _ => rfl

theorem closeConsumer_consumers (s : CSState) (consumerId : Nat) :
    (closeConsumer s consumerId).consumers = aerase s.consumers consumerId := by
  unfold closeConsumer
  cases h : alookup s.consumers consumerId with
  | none => exact (aerase_of_alookup_none h).symm
  | some _ => rfl

theorem closeTransport_transports (s : TSState) (transportId : Nat) :
    (closeTransport s transportId).transports = aerase s.transports transportId := by
  unfold closeTransport
  cases h : alookup s.transports transportId with
  | none => exact (aerase_of_alookup_none h).symm
  | some _ => rfl

theorem foldl_closeProducer_producers :
    ∀ (L : List ProducerInfo) (s : PSState),
      (List.foldl (fun acc info => closeProducer acc info.producer.id) s L).producers =
        List.foldl aerase s.producers (L.map (fun info => info.producer.id)) := by
  intro L
  induction L with
  | nil => intro s; rfl
  | cons hd tl ih =>
      intro s
      rw [List.foldl_cons, List.map_cons, List.foldl_cons, ih, closeProducer_producers]

theorem foldl_closeConsumer_consumers :
    ∀ (L : List ConsumerInfo) (s : CSState),
      (List.foldl (fun acc info => closeConsumer acc info.consumer.id) s L).consumers =
        List.foldl aerase s.consumers (L.map (fun info => info.consumer.id)) := by
  intro L
  induction L with
  | nil => intro s; rfl
  | cons hd tl ih =>
      intro s
      rw [List.foldl_cons, List.map_cons, List.foldl_cons, ih, closeConsumer_consumers]

theorem foldl_closeTransport_transports :
    ∀ (L : List TransportInfo) (s : TSState),
      (List.foldl (fun acc info => closeTransport acc info.transport.id) s L).transports =
        List.foldl aerase s.transports (L.map (fun info => info.transport.id)) := by
  intro L
  induction L with
  | nil => intro s; rfl
  | cons hd tl ih =>
      intro s
      rw [List.foldl_cons, List.map_cons, List.foldl_cons, ih, closeTransport_transports]

/-- Bulk close removes every producer of the peer from the registry. -/
theorem closeProducersForPeer_clears (s : PSState) (peerId : String)
    (hwf : ∀ p ∈ s.producers, p.2.producer.id = p.1) :
    getProducersForPeer (closeProducersForPeer s peerId) peerId = [] := by
  unfold closeProducersForPeer
  unfold getProducersForPeer
  rw [foldl_closeProducer_producers]
  exact foldl_aerase_clears s.producers _ _ hwf

/-- Bulk close removes every consumer of the peer from the registry. -/
theorem closeConsumersForPeer_clears (s : CSState) (peerId : String)
    (hwf : ∀ p ∈ s.consumers, p.2.consumer.id = p.1) :
    getConsumersForPeer (closeConsumersForPeer s peerId) peerId = [] := by
  unfold closeConsumersForPeer
  unfold getConsumersForPeer
  rw [foldl_closeConsumer_consumers]
  exact foldl_aerase_clears s.consumers _ _ hwf

/-- Bulk close removes every transport of the peer from the registry. -/
theorem closeTransportsForPeer_clears (s : TSState) (peerId : String)
    (hwf : ∀ p ∈ s.transports, p.2.transport.id = p.1) :
    getTransportsForPeer (closeTransportsForPeer s peerId) peerId = [] := by
  unfold closeTransportsForPeer
  unfold getTransportsForPeer
  rw [foldl_closeTransport_transports]
  exact foldl_aerase_clears s.transports _ _ hwf

/-- Claim C9 counterexample: in gwC9 peer u1 is the sole participant of
room exam-1 and the room router is registered; after handleDisconnect
the room entry is gone from the registry entirely — so no room is
marked ended — and the router of exam-1 is still registered and was
never closed, contradicting the claimed close-router-and-mark-ended
step of the cascade. -/
theorem claim9_disconnect_cex :
    hasRouter gwC9.rs "exam-1" = true ∧
    hasRouter (handleDisconnect gwC9 clientC9).rs "exam-1" = true ∧
    (handleDisconnect gwC9 clientC9).rs.closedRouters = [] ∧
    alookup (handleDisconnect gwC9 clientC9).rooms "exam-1" = none := by
  refine ⟨by decide, by decide, by decide, by decide⟩

/-- Claim C9 (amended): on disconnect of a joined peer the cascade closes
the peer producers, consumers and transports (their registries hold
nothing for the peer afterwards), removes the participant from the room
roster — deleting the room entry outright when the roster empties,
never marking it ended and never touching the router registry — and
then broadcasts participant-left to the other clients of the room. -/
theorem claim9_disconnect_amended (gw : GWState) (cid u r : String)
    (room : Room) (part : Participant)
    (hwfP : ∀ p ∈ gw.ps.producers, p.2.producer.id = p.1)
    (hwfC : ∀ p ∈ gw.cs.consumers, p.2.consumer.id = p.1)
    (hwfT : ∀ p ∈ gw.ts.transports, p.2.transport.id = p.1)
    (hroom : alookup gw.rooms r = some room)
    (hpart : alookup room.participants u = some part) :
    getProducersForPeer (handleDisconnect gw ⟨cid, some u, some r⟩).ps u = [] ∧
    getConsumersForPeer (handleDisconnect gw ⟨cid, some u, some r⟩).cs u = [] ∧
    getTransportsForPeer (handleDisconnect gw ⟨cid, some u, some r⟩).ts u = [] ∧
    (handleDisconnect gw ⟨cid, some u, some r⟩).rs = gw.rs ∧
    (aerase room.participants u = [] →
       alookup (handleDisconnect gw ⟨cid, some u, some r⟩).rooms r = none) ∧
    (aerase room.participants u ≠ [] →
       ∃ room', alookup (handleDisconnect gw ⟨cid, some u, some r⟩).rooms r = some room' ∧
         alookup room'.participants u = none ∧ room'.state = room.state) ∧
    (handleDisconnect gw ⟨cid, some u, some r⟩).outbox =
      gw.outbox ++ [{ recipients := ((avalues gw.clients).filter (fun c => decide (c.roomId = some r ∧ c.id ≠ cid))).map (fun c => c.id), msg := .participantLeft r u }] ∧
    alookup (handleDisconnect gw ⟨cid, some u, some r⟩).clients cid = none := by
  have hrun : handleDisconnect gw ⟨cid, some u, some r⟩ = { clients := aerase gw.clients cid, rooms := (removeParticipant gw.rooms r u).1, rs := gw.rs, ts := closeTransportsForPeer gw.ts u, ps := closeProducersForPeer gw.ps u, cs := closeConsumersForPeer gw.cs u, outbox := gw.outbox ++ [{ recipients := ((avalues gw.clients).filter (fun c => decide (c.roomId = some r ∧ c.id ≠ cid))).map (fun c => c.id), msg := .participantLeft r u }] } := rfl
  refine ⟨?_, ?_, ?_, by rw [hrun], ?_, ?_, by rw [hrun], ?_⟩
  · rw [hrun]
    exact closeProducersForPeer_clears gw.ps u hwfP
  · rw [hrun]
    exact closeConsumersForPeer_clears gw.cs u hwfC
  · rw [hrun]
    exact closeTransportsForPeer_clears gw.ts u hwfT
  · intro hempty
    rw [hrun]
    show alookup (removeParticipant gw.rooms r u).1 r = none
    unfold removeParticipant
    rw [hroom]
    simp [hpart, hempty, alookup_aerase_self]
  · intro hne
    rw [hrun]
    show ∃ room', alookup (removeParticipant gw.rooms r u).1 r = some room' ∧
      alookup room'.participants u = none ∧ room'.state = room.state
    unfold removeParticipant
    rw [hroom]
    simp only [hpart, Option.isSome_some, if_true]
    rw [if_neg (by simpa [List.length_eq_zero] using hne)]
    exact ⟨{ room with participants := aerase room.participants u }, alookup_ainsert_self _ _ _, alookup_aerase_self _ _, rfl⟩
  · rw [hrun]
    exact alookup_aerase_self _ _

/-- Witness for the amended claim C9: u1 disconnects from gwC9b, where u3
is the other participant; all u1 registries empty out, the room survives
with u1 removed and its state intact, the router registry is untouched,
and participant-left reaches exactly the remaining client c3. -/
theorem claim9_disconnect_amended_witness :
    getProducersForPeer (handleDisconnect gwC9b clientC9).ps "u1" = [] ∧
    getConsumersForPeer (handleDisconnect gwC9b clientC9).cs "u1" = [] ∧
    getTransportsForPeer (handleDisconnect gwC9b clientC9).ts "u1" = [] ∧
    (handleDisconnect gwC9b clientC9).rs = gwC9b.rs ∧
    (∃ room', alookup (handleDisconnect gwC9b clientC9).rooms "exam-1" = some room' ∧
       alookup room'.participants "u1" = none ∧ room'.state = RoomState.active) ∧
    (handleDisconnect gwC9b clientC9).outbox =
      gwC9b.outbox ++ [{ recipients := ["c3"], msg := .participantLeft "exam-1" "u1" }] ∧
    alookup (handleDisconnect gwC9b clientC9).clients "c1" = none := by
  have h := claim9_disconnect_amended gwC9b "c1" "u1" "exam-1" { config := joinRoomConfig "exam-1", state := .active, participants := [("u1", ⟨"u1"⟩), ("u3", ⟨"u3"⟩)] } ⟨"u1"⟩ (by decide) (by decide) (by decide) rfl rfl
  exact ⟨h.1, h.2.1, h.2.2.1, h.2.2.2.1, h.2.2.2.2.2.1 (by decide), h.2.2.2.2.2.2.1, h.2.2.2.2.2.2.2⟩

-- ===========================================================================
-- Claim C8: round-robin fairness of worker selection
-- ===========================================================================

theorem countP_congr_mem {α : Type} :
    ∀ (l : List α) (p q : α → Bool), (∀ a ∈ l, p a = q a) →
      l.countP p = l.countP q := by
  intro l
  induction l with
  | nil => intro p q h; rfl
  | cons hd tl ih =>
      intro p q h
      rw [List.countP_cons, List.countP_cons,
        ih p q (fun a ha => h a (List.mem_cons_of_mem _ ha)),
        h hd (List.mem_cons_self hd tl)]

theorem count_map_eq_countP {α β : Type} [DecidableEq β] (g : α → β)
    (l : List α) (b : β) :
    (l.map g).count b = l.countP (fun a => g a == b) := by
  induction l with
  | nil => rfl
  | cons hd tl ih => rw [List.map_cons, List.count_cons, List.countP_cons, ih]

/-- One getNextWorker call from an in-range cursor returns the worker at
the cursor and advances the cursor modulo the pool size. -/
theorem getNextWorker_step (ws : List WorkerInfo) (i : Nat) (hi : i < ws.length) :
    getNextWorker ⟨ws, i⟩ = .ok ((ws.getD i wiDefault).worker, ⟨ws, (i + 1) % ws.length⟩) := by
  unfold getNextWorker
  rw [List.get?_eq_get hi, List.getD_eq_get ws wiDefault hi]

/-- Closed form of a run of getNextWorker calls: the t-th call from
cursor i returns the worker at index (i + t) mod poolSize, and the
cursor ends at (i + n) mod poolSize. -/
theorem getNextWorkerRun_closed (ws : List WorkerInfo) (hp : 0 < ws.length) :
    ∀ (n i : Nat), i < ws.length →
      getNextWorkerRun ⟨ws, i⟩ n =
        (((List.range n).map (fun t => (i + t) % ws.length)).map (fun a => (ws.getD a wiDefault).worker), ⟨ws, (i + n) % ws.length⟩) := by
  intro n
  induction n with
  | zero =>
      intro i hi
      simp [getNextWorkerRun, Nat.mod_eq_of_lt hi]
  | succ n ih =>
      intro i hi
      unfold getNextWorkerRun
      rw [getNextWorker_step ws i hi]
      show ((ws.getD i wiDefault).worker :: (getNextWorkerRun ⟨ws, (i + 1) % ws.length⟩ n).1, (getNextWorkerRun ⟨ws, (i + 1) % ws.length⟩ n).2) = _
      rw [ih ((i + 1) % ws.length) (Nat.mod_lt _ hp)]
      show ((ws.getD i wiDefault).worker :: ((List.range n).map (fun t => ((i + 1) % ws.length + t) % ws.length)).map (fun a => (ws.getD a wiDefault).worker), ({ workers := ws, nextWorkerIndex := ((i + 1) % ws.length + n) % ws.length } : WMState)) = _
      refine congrArg₂ Prod.mk ?_ ?_
      · rw [List.range_succ_eq_map, List.map_cons, List.map_cons]
        congr 1
        · rw [Nat.add_zero, Nat.mod_eq_of_lt hi]
        · congr 1
          rw [List.map_map]
          apply List.map_congr_left
          intro t _
          show ((i + 1) % ws.length + t) % ws.length = (i + Nat.succ t) % ws.length
          rw [Nat.mod_add_mod]
          have harr : i + 1 + t = i + Nat.succ t := by omega
          rw [harr]
      · have hstate : ((i + 1) % ws.length + n) % ws.length = (i + (n + 1)) % ws.length := by
          rw [Nat.mod_add_mod]
          have harr : i + 1 + n = i + (n + 1) := by omega
          rw [harr]
        rw [hstate]

/-- Exactly one index of one full round-robin cycle from cursor i lands
on index j. -/
theorem countP_rr_cycle (p i j : Nat) (hp : 0 < p) (hi : i < p) (hj : j < p) :
    (List.range p).countP (fun t => (i + t) % p == j) = 1 := by
  have ht0 : (p + j - i) % p < p := Nat.mod_lt _ hp
  have hhit : (i + (p + j - i) % p) % p = j := by
    have e1 : (i + (p + j - i) % p) % p = (i + (p + j - i)) % p :=
      (Nat.mod_modEq (p + j - i) p).add_left i
    have e2 : i + (p + j - i) = p + j := by omega
    rw [e1, e2, Nat.add_mod_left, Nat.mod_eq_of_lt hj]
  have hiff : ∀ t, t < p → (((i + t) % p == j) = (t == (p + j - i) % p)) := by
    intro t htlt
    by_cases he : t = (p + j - i) % p
    · simp [he, hhit]
    · have hne2 : (i + t) % p ≠ j := by
        intro hcontra
        apply he
        have heq : (i + t) % p = (i + (p + j - i) % p) % p := by rw [hcontra, hhit]
        have hm : Nat.ModEq p t ((p + j - i) % p) := Nat.ModEq.add_left_cancel' i heq
        have hm' : t % p = ((p + j - i) % p) % p := hm
        rw [Nat.mod_eq_of_lt htlt, Nat.mod_eq_of_lt ht0] at hm'
        exact hm'
      simp [he, hne2]
  have hcongr : (List.range p).countP (fun t => (i + t) % p == j) =
      (List.range p).countP (fun t => t == (p + j - i) % p) :=
    countP_congr_mem _ _ _ (fun t ht => hiff t (List.mem_range.mp ht))
  rw [hcongr]
  exact List.count_eq_one_of_mem (List.nodup_range p) (List.mem_range.mpr ht0)

/-- Over any N full cycles, each index is hit exactly N times. -/
theorem countP_rr_total (p i j : Nat) (hp : 0 < p) (hi : i < p) (hj : j < p) :
    ∀ N, (List.range (N * p)).countP (fun t => (i + t) % p == j) = N := by
  intro N
  induction N with
  | zero => simp
  | succ N ih =>
      have hsplit : (N + 1) * p = N * p + p := by ring
      rw [hsplit, List.range_add, List.countP_append, ih, List.countP_map]
      have hcong : (List.range p).countP ((fun t => (i + t) % p == j) ∘ (fun t' => N * p + t')) =
          (List.range p).countP (fun t => (i + t) % p == j) := by
        apply countP_congr_mem
        intro t _
        have harith : (i + (N * p + t)) % p = (i + t) % p := by
          have hre : i + (N * p + t) = (i + t) + N * p := by ring
          rw [hre, Nat.add_mul_mod_self_right]
        simp [Function.comp, harith]
      rw [hcong, countP_rr_cycle p i j hp hi hj]

/-- Selecting at two in-range indices of a duplicate-free pool yields the
same worker only at the same index. -/
theorem getD_worker_inj (ws : List WorkerInfo)
    (hnd : (ws.map (fun wi => wi.worker)).Nodup)
    (a b : Nat) (ha : a < ws.length) (hb : b < ws.length)
    (h : (ws.getD a wiDefault).worker = (ws.getD b wiDefault).worker) : a = b := by
  rw [List.getD_eq_get ws wiDefault ha, List.getD_eq_get ws wiDefault hb] at h
  have ha' : a < (ws.map (fun wi => wi.worker)).length := by simpa using ha
  have hb' : b < (ws.map (fun wi => wi.worker)).length := by simpa using hb
  have hm : (ws.map (fun wi => wi.worker)).get ⟨a, ha'⟩ =
      (ws.map (fun wi => wi.worker)).get ⟨b, hb'⟩ := by
    rw [List.get_map, List.get_map]
    exact h
  have := (List.Nodup.get_inj_iff hnd).mp hm
  exact congrArg Fin.val this

/-- Claim C8: round-robin fairness — from any in-range cursor over a
fixed duplicate-free pool of poolSize live workers, N * poolSize
successive getNextWorker calls return each worker of the pool exactly N
times. -/
theorem claim8_round_robin_fairness (ws : List WorkerInfo) (i N j : Nat)
    (hp : 0 < ws.length) (hi : i < ws.length) (hj : j < ws.length)
    (hnd : (ws.map (fun wi => wi.worker)).Nodup) :
    ((getNextWorkerRun ⟨ws, i⟩ (N * ws.length)).1).count ((ws.getD j wiDefault).worker) = N := by
  rw [getNextWorkerRun_closed ws hp (N * ws.length) i hi]
  show (((List.range (N * ws.length)).map (fun t => (i + t) % ws.length)).map (fun a => (ws.getD a wiDefault).worker)).count ((ws.getD j wiDefault).worker) = N
  rw [count_map_eq_countP, List.countP_map]
  have hcong : (List.range (N * ws.length)).countP ((fun a => (ws.getD a wiDefault).worker == (ws.getD j wiDefault).worker) ∘ (fun t => (i + t) % ws.length)) =
      (List.range (N * ws.length)).countP (fun t => (i + t) % ws.length == j) := by
    apply countP_congr_mem
    intro t _
    show ((ws.getD ((i + t) % ws.length) wiDefault).worker == (ws.getD j wiDefault).worker) = (((i + t) % ws.length) == j)
    by_cases he : (i + t) % ws.length = j
    · simp [he]
    · have hw : (ws.getD ((i + t) % ws.length) wiDefault).worker ≠ (ws.getD j wiDefault).worker := by
        intro hcontra
        exact he (getD_worker_inj ws hnd _ _ (Nat.mod_lt _ hp) hj hcontra)
      rw [beq_eq_false_iff_ne.mpr hw, beq_eq_false_iff_ne.mpr he]
  rw [hcong]
  exact countP_rr_total ws.length i j hp hi hj N

/-- Witness for claim C8: a pool of two distinct workers, cursor 1, six
calls: worker at index 0 is returned exactly three times. -/
theorem claim8_round_robin_fairness_witness :
    ((getNextWorkerRun ⟨[{ worker := ⟨1⟩, routerCount := 0 }, { worker := ⟨2⟩, routerCount := 0 }], 1⟩ (3 * 2)).1).count ⟨1⟩ = 3 :=
  claim8_round_robin_fairness [{ worker := ⟨1⟩, routerCount := 0 }, { worker := ⟨2⟩, routerCount := 0 }] 1 3 0 (by decide) (by decide) (by decide) (by decide)

end Proctoring
